import Mathlib

/-!
Shallow embedding of the core of the Agent-Pluggin repository.

Agent loop (`app/utils/llm.py`, class `StockAnalysisAgent`):

* The mutable `self` of the Python class is threaded explicitly as an
  `AgentState`.  `gateway_calls` is an instrumentation counter recording
  how many `query_llm` calls have been made; it corresponds to no Python
  attribute and is incremented exactly where the source performs the
  gateway call.
* The language model is an oracle `gw : String → String` mapping the
  prompt text to the response text.  `query_llm` itself never raises: it
  converts any backend failure into an error string, so the oracle is a
  total function.
* A Python exception escaping a method is modelled as `Except.error`
  carrying the exception text; a normal return is `Except.ok`.
* A registry function's return value is modelled by its `str` rendering,
  which is the only view the loop ever takes of it (`str(result)` for the
  completion check and f-string interpolation for the transcript).

Analysis functions (`app/services/stock_functions.py`):

* `analyze_price_data` and `correlate_news_and_price` are embedded with
  JSON records as typed structures and JSON numbers as `ℚ` (exact
  arithmetic standing in for Python floats; every claim here is about the
  algebraic form of the computed quantities, not about rounding).
-/

deriving instance DecidableEq for Except

namespace AgentPluggin

/-- Whether `needle` is a prefix of `hay` (on character lists). -/
def isPrefixList : List Char → List Char → Bool
  | [], _ => true
  | _ :: _, [] => false
  | c :: cs, d :: ds => c == d && isPrefixList cs ds

/-- Split `hay` at the leftmost occurrence of `needle`, returning the
characters before and after it, or `none` when `needle` does not occur. -/
def splitFirst (needle : List Char) : List Char → Option (List Char × List Char)
  | [] => if needle.isEmpty then some ([], []) else none
  | d :: ds =>
    if isPrefixList needle (d :: ds) then some ([], (d :: ds).drop needle.length)
    else
      match splitFirst needle ds with
      | some (pre, post) => some (d :: pre, post)
      | none => none

/-- Python `needle in hay`: substring containment (the empty string is
contained in everything). -/
def containsSubstr (hay needle : String) : Bool :=
  (splitFirst needle.data hay.data).isSome

/-- Python `s.split(sep, 1)` for a non-empty separator: at most one split,
at the first occurrence of `sep`. -/
def pysplit1 (s sep : String) : List String :=
  match splitFirst sep.data s.data with
  | some (pre, post) => [String.mk pre, String.mk post]
  | none => [s]

/-- Python `s.strip()`: drop leading and trailing whitespace. -/
def pystrip (s : String) : String :=
  String.mk (((s.data.dropWhile Char.isWhitespace).reverse.dropWhile
    Char.isWhitespace).reverse)

/-- `response.split("FUNCTION_CALL:", 1)[1].strip()` (llm.py line 79).
Total function: the loop only evaluates the index `[1]` after checking
that the marker occurs in `response`, in which case the split has exactly
two parts and the default is never used. -/
def after_marker (response : String) : String :=
  pystrip ((pysplit1 response "FUNCTION_CALL:").getD 1 "")

/-- A registry entry: takes the raw parameter string, returns the `str`
rendering of its result, or raises (modelled as `Except.error` with the
exception text). -/
abbrev PyFunc := String → Except String String

/-- `function_map`: a Python dict from function name to callable
(insertion-ordered, unique keys).  The empty list plays the role of both
falsy values `None` and `{}` in `if function_map and ...`. -/
abbrev FunctionMap := List (String × PyFunc)

/-- Python `func_name in function_map` / `function_map[func_name]`. -/
def lookup (fm : FunctionMap) (name : String) : Option PyFunc :=
  (fm.find? (fun p => p.1 == name)).map (fun p => p.2)

/-- The attributes of `StockAnalysisAgent`, plus the instrumentation
counter `gateway_calls`. -/
structure AgentState where
  max_iterations : Nat
  system_prompt : String
  current_query : String
  iteration : Nat
  iteration_results : List String
  iteration_responses : List String
  gateway_calls : Nat
  deriving DecidableEq

/-- `StockAnalysisAgent.__init__(max_iterations)` (llm.py lines 32-38). -/
def agent_init (max_iterations : Nat) : AgentState :=
  { max_iterations := max_iterations
    system_prompt := ""
    current_query := ""
    iteration := 0
    iteration_results := []
    iteration_responses := []
    gateway_calls := 0 }

/-- `StockAnalysisAgent.set_system_prompt` (llm.py lines 40-42). -/
def set_system_prompt (s : AgentState) (system_prompt : String) : AgentState :=
  { s with system_prompt := system_prompt }

/-- `StockAnalysisAgent.set_initial_query` (llm.py lines 44-46). -/
def set_initial_query (s : AgentState) (query : String) : AgentState :=
  { s with current_query := query }

/-- A freshly constructed agent with ceiling `N` and both prompts set, the
way the router prepares it before `run_until_completion`. -/
def initState (N : Nat) (sp q : String) : AgentState :=
  set_initial_query (set_system_prompt (agent_init N) sp) q

/-- `self.iteration += 1` (llm.py line 61), together with the
instrumentation count of the one `query_llm` call that the same
non-early-return path always performs (line 73). -/
def bump (s : AgentState) : AgentState :=
  { s with iteration := s.iteration + 1, gateway_calls := s.gateway_calls + 1 }

/-- Prompt construction (llm.py lines 64-72). -/
def build_prompt (s : AgentState) : String :=
  let prompt_context :=
    if 0 < s.iteration_responses.length then
      s.current_query ++ "\n\n" ++ String.intercalate "\n" s.iteration_responses ++
        "\nWhat should I do next?"
    else s.current_query
  s.system_prompt ++ "\n\nQuery: " ++ prompt_context

/-- `StockAnalysisAgent.execute_iteration` (llm.py lines 48-100).
Returns the updated state and either the Python return value or the
exception that escaped the method. -/
def execute_iteration (fm : FunctionMap) (gw : String → String) (s : AgentState) :
    AgentState × Except String String :=
  if s.max_iterations ≤ s.iteration then
    (s, Except.ok "Maximum iterations reached")
  else
    let s1 := bump s
    let response := gw (build_prompt s1)
    if !fm.isEmpty && containsSubstr response "FUNCTION_CALL:" then
      match pysplit1 (after_marker response) "|" with
      | [a, b] =>
        let func_name := pystrip a
        let params := pystrip b
        match lookup fm func_name with
        | some f =>
          match f params with
          | Except.ok result =>
            ({ s1 with
                iteration_results := s1.iteration_results ++ [result]
                iteration_responses := s1.iteration_responses ++
                  ["In iteration " ++ toString s1.iteration ++ " you called " ++
                    func_name ++ " with " ++ params ++
                    " parameters, and the function returned " ++ result ++ "."] },
              Except.ok result)
          | Except.error e => (s1, Except.error e)
        | none =>
          ({ s1 with iteration_responses :=
              s1.iteration_responses ++ ["Function " ++ func_name ++ " not found"] },
            Except.ok ("Function " ++ func_name ++ " not found"))
      | _ =>
        -- `func_name, params = [...]` with a 1-element list: unpacking raises.
        (s1, Except.error "ValueError: not enough values to unpack (expected 2, got 1)")
    else
      ({ s1 with iteration_responses := s1.iteration_responses ++ [response] },
        Except.ok response)

/-- One-step-indexed unfolding of the `while` loop of
`run_until_completion` (llm.py lines 113-122).  The fuel argument is the
loop variant `max_iterations - iteration`: every executed iteration
increments `iteration` by one and leaves `max_iterations` unchanged, so
along any run the fuel is exactly the number of loop tests remaining and
the fuel-0 case coincides with the failing loop guard. -/
def run_aux (fm : FunctionMap) (gw : String → String) (marker : String) :
    Nat → AgentState → AgentState × Except String String
  | 0, s => (s, Except.ok "Maximum iterations reached without completion")
  | fuel + 1, s =>
    if s.max_iterations ≤ s.iteration then
      (s, Except.ok "Maximum iterations reached without completion")
    else
      match execute_iteration fm gw s with
      | (s₁, Except.error e) => (s₁, Except.error e)
      | (s₁, Except.ok r) =>
        if containsSubstr r marker then (s₁, Except.ok r)
        else run_aux fm gw marker fuel s₁

/-- `StockAnalysisAgent.run_until_completion` (llm.py lines 102-122). -/
def run_until_completion (fm : FunctionMap) (gw : String → String) (marker : String)
    (s : AgentState) : AgentState × Except String String :=
  run_aux fm gw marker (s.max_iterations - s.iteration) s

/-! ### stock_functions.py -/

/-- Python `abs()` on a (rational-modelled) number. -/
def pyabs (q : ℚ) : ℚ := if q < 0 then -q else q

/-- One record of `ticker_data["daily_changes"]`. -/
structure DailyChange where
  date : String
  percent_change : ℚ
  close : ℚ
  deriving DecidableEq

/-- The decoded JSON argument of `analyze_price_data`. -/
structure TickerData where
  symbol : String
  name : String
  current_price : ℚ
  daily_changes : List DailyChange
  deriving DecidableEq

/-- The `max_gain` / `max_loss` sub-dictionaries of the result. -/
structure ExtremeDay where
  date : String
  percent : ℚ
  price : ℚ
  deriving DecidableEq

/-- The success-shaped result dictionary of `analyze_price_data`. -/
structure PriceAnalysis where
  ticker : String
  company_name : String
  current_price : ℚ
  analysis_period : String
  average_daily_change : ℚ
  up_days : Nat
  down_days : Nat
  max_gain : ExtremeDay
  max_loss : ExtremeDay
  deriving DecidableEq

/-- Result of `analyze_price_data`: either the
`{"status": "error", "message": ...}` dictionary or the analysis. -/
inductive PriceResult where
  | err (status message : String)
  | ok (r : PriceAnalysis)
  deriving DecidableEq

/-- Python `max(l, key=k)`: keeps the current best and replaces it only on a
strictly larger key, so ties resolve to the first occurrence. -/
def pymax_by {α : Type} (key : α → ℚ) : List α → Option α
  | [] => none
  | x :: xs => some (xs.foldl (fun best y => if key best < key y then y else best) x)

/-- Python `min(l, key=k)`: keeps the current best and replaces it only on a
strictly smaller key, so ties resolve to the first occurrence. -/
def pymin_by {α : Type} (key : α → ℚ) : List α → Option α
  | [] => none
  | x :: xs => some (xs.foldl (fun best y => if key y < key best then y else best) x)

/-- `analyze_price_data` (stock_functions.py lines 4-67), on the decoded
JSON value.  The accumulation loop of lines 31-38 is rendered as one fold
per accumulator variable. -/
def analyze_price_data (ticker_data : TickerData) : PriceResult :=
  match ticker_data.daily_changes with
  | [] => PriceResult.err "error" "No daily price changes found in data"
  | first :: rest =>
    let daily_changes := first :: rest
    let total_change := daily_changes.foldl (fun t c => t + c.percent_change) 0
    let up_days := daily_changes.foldl
      (fun n c => if 0 < c.percent_change then n + 1 else n) 0
    let down_days := daily_changes.foldl
      (fun n c => if c.percent_change < 0 then n + 1 else n) 0
    let avg_change := total_change / (daily_changes.length : ℚ)
    let max_gain := (pymax_by (fun c => c.percent_change) daily_changes).getD first
    let max_loss := (pymin_by (fun c => c.percent_change) daily_changes).getD first
    PriceResult.ok
      { ticker := ticker_data.symbol
        company_name := ticker_data.name
        current_price := ticker_data.current_price
        analysis_period := first.date ++ " to " ++ (rest.getLastD first).date
        average_daily_change := avg_change
        up_days := up_days
        down_days := down_days
        max_gain := ⟨max_gain.date, max_gain.percent_change, max_gain.close⟩
        max_loss := ⟨max_loss.date, max_loss.percent_change, max_loss.close⟩ }

/-- One news article (only the `title` field is read by the correlation
code). -/
structure NewsArticle where
  title : String
  deriving DecidableEq

/-- The per-date value of the decoded JSON argument of
`correlate_news_and_price`: `price_change_percent` and `news_articles`. -/
structure DayData where
  price_change_percent : ℚ
  news_articles : List NewsArticle
  deriving DecidableEq

/-- Entry of the `days_with_news` accumulator list. -/
structure NewsDay where
  date : String
  price_change : ℚ
  news_count : Nat
  deriving DecidableEq

/-- Entry of the `days_without_news` accumulator list. -/
structure QuietDay where
  date : String
  price_change : ℚ
  deriving DecidableEq

/-- Entry of the `significant_price_days` result list. -/
structure SignificantDay where
  date : String
  price_change : ℚ
  news_count : Nat
  news_titles : List String
  deriving DecidableEq

/-- The result dictionary of `correlate_news_and_price`. -/
structure CorrelationResult where
  days_with_news : Nat
  days_without_news : Nat
  avg_price_change_with_news : ℚ
  avg_price_change_without_news : ℚ
  difference : ℚ
  has_correlation : Bool
  correlation_strength : ℚ
  significant_price_days : List SignificantDay
  deriving DecidableEq

/-- The partition loop of stock_functions.py lines 129-136: walk the
(insertion-ordered) date dictionary, appending each day to the bucket for
days with news (`if news:` is Python truthiness, i.e. non-empty list) or
the bucket for days without news. -/
def partitionDays : List (String × DayData) → List NewsDay × List QuietDay
  | [] => ([], [])
  | (date, d) :: rest =>
    let (ws, qs) := partitionDays rest
    if d.news_articles.isEmpty then (ws, ⟨date, d.price_change_percent⟩ :: qs)
    else (⟨date, d.price_change_percent, d.news_articles.length⟩ :: ws, qs)

/-- `correlate_news_and_price` (stock_functions.py lines 111-168), on the
decoded JSON value; the date dictionary is the insertion-ordered
association list of its items. -/
def correlate_news_and_price (data : List (String × DayData)) : CorrelationResult :=
  let days_with_news := (partitionDays data).1
  let days_without_news := (partitionDays data).2
  let avg_with_news : ℚ :=
    if days_with_news.isEmpty then 0
    else (days_with_news.map NewsDay.price_change).sum / (days_with_news.length : ℚ)
  let avg_without_news : ℚ :=
    if days_without_news.isEmpty then 0
    else (days_without_news.map QuietDay.price_change).sum / (days_without_news.length : ℚ)
  let significant_days : List SignificantDay :=
    (data.filter (fun p => decide (2 ≤ pyabs p.2.price_change_percent))).map
      (fun p => ⟨p.1, p.2.price_change_percent, p.2.news_articles.length,
        (p.2.news_articles.map NewsArticle.title).take 3⟩)
  { days_with_news := days_with_news.length
    days_without_news := days_without_news.length
    avg_price_change_with_news := avg_with_news
    avg_price_change_without_news := avg_without_news
    difference := avg_with_news - avg_without_news
    has_correlation := decide ((1 : ℚ)/2 < pyabs (avg_with_news - avg_without_news))
    correlation_strength :=
      if 0 < max (pyabs avg_with_news) (pyabs avg_without_news) then
        pyabs (avg_with_news - avg_without_news) /
          max (pyabs avg_with_news) (pyabs avg_without_news)
      else 0
    significant_price_days := significant_days }

/-! ### Spec-side restatements used by the claims -/

/-- Mean percent change over the dates that have news, stated directly on
the input (0 when there is no such date). -/
def withNewsMean (data : List (String × DayData)) : ℚ :=
  let l := data.filter (fun p => !p.2.news_articles.isEmpty)
  if l.isEmpty then 0
  else (l.map (fun p => p.2.price_change_percent)).sum / (l.length : ℚ)

/-- Mean percent change over the dates that have no news, stated directly
on the input (0 when there is no such date). -/
def withoutNewsMean (data : List (String × DayData)) : ℚ :=
  let l := data.filter (fun p => p.2.news_articles.isEmpty)
  if l.isEmpty then 0
  else (l.map (fun p => p.2.price_change_percent)).sum / (l.length : ℚ)

/-- The content of claim C9 for one input: `analyze_price_data` succeeds
and returns the mean of the percent changes, the up-day and down-day
counts (zero counted as neither), and extreme records attaining the
maximum and minimum percent change, ties broken by first occurrence. -/
def price_analysis_spec (td : TickerData) : Prop :=
  ∃ res, analyze_price_data td = PriceResult.ok res ∧
    res.average_daily_change =
      (td.daily_changes.map DailyChange.percent_change).sum / (td.daily_changes.length : ℚ) ∧
    res.up_days = td.daily_changes.countP (fun c => decide (0 < c.percent_change)) ∧
    res.down_days = td.daily_changes.countP (fun c => decide (c.percent_change < 0)) ∧
    (∃ g l₁ l₂, td.daily_changes = l₁ ++ g :: l₂ ∧
      res.max_gain = ⟨g.date, g.percent_change, g.close⟩ ∧
      (∀ y ∈ l₁, y.percent_change < g.percent_change) ∧
      (∀ y ∈ td.daily_changes, y.percent_change ≤ g.percent_change)) ∧
    (∃ m l₁ l₂, td.daily_changes = l₁ ++ m :: l₂ ∧
      res.max_loss = ⟨m.date, m.percent_change, m.close⟩ ∧
      (∀ y ∈ l₁, m.percent_change < y.percent_change) ∧
      (∀ y ∈ td.daily_changes, m.percent_change ≤ y.percent_change))

/-! ### Helper lemmas about the agent loop -/

theorem build_prompt_bump (s : AgentState) : build_prompt (bump s) = build_prompt s := rfl

theorem exec_shape (fm : FunctionMap) (gw : String → String) (s : AgentState)
    (h : s.iteration < s.max_iterations) :
    (execute_iteration fm gw s).1.iteration = s.iteration + 1 ∧
    (execute_iteration fm gw s).1.max_iterations = s.max_iterations ∧
    (execute_iteration fm gw s).1.gateway_calls = s.gateway_calls + 1 := by
  refine ⟨?_, ?_, ?_⟩ <;>
  · unfold execute_iteration
    rw [if_neg (Nat.not_le.mpr h)]
    dsimp only
    repeat' split
    all_goals rfl

theorem exec_shape' (fm : FunctionMap) (gw : String → String) (s s₁ : AgentState)
    (res : Except String String) (h : s.iteration < s.max_iterations)
    (hE : execute_iteration fm gw s = (s₁, res)) :
    s₁.iteration = s.iteration + 1 ∧ s₁.max_iterations = s.max_iterations ∧
    s₁.gateway_calls = s.gateway_calls + 1 := by
  have h3 := exec_shape fm gw s h
  rw [hE] at h3
  simpa using h3

theorem exec_ok_responses (fm : FunctionMap) (gw : String → String) (s s₁ : AgentState)
    (r : String) (h : s.iteration < s.max_iterations)
    (hE : execute_iteration fm gw s = (s₁, Except.ok r)) :
    s₁.iteration_responses.length = s.iteration_responses.length + 1 := by
  unfold execute_iteration at hE
  rw [if_neg (Nat.not_le.mpr h)] at hE
  dsimp only at hE
  repeat' split at hE
  all_goals rw [Prod.mk.injEq] at hE
  all_goals obtain ⟨h1, h2⟩ := hE
  all_goals try exact Except.noConfusion h2
  all_goals subst h1
  all_goals simp [bump]

theorem run_aux_calls_le (fm : FunctionMap) (gw : String → String) (marker : String) :
    ∀ (fuel : Nat) (s : AgentState),
      (run_aux fm gw marker fuel s).1.gateway_calls ≤ s.gateway_calls + fuel := by
  intro fuel
  induction fuel with
  | zero => intro s; simp [run_aux]
  | succ n ih =>
    intro s
    rw [run_aux]
    by_cases h : s.max_iterations ≤ s.iteration
    · rw [if_pos h]; simp
    · rw [if_neg h]
      rcases hE : execute_iteration fm gw s with ⟨s₁, res⟩
      have hsh := exec_shape' fm gw s s₁ res (Nat.lt_of_not_le h) hE
      cases res with
      | error e => dsimp only; omega
      | ok v =>
        dsimp only
        by_cases hm : containsSubstr v marker
        · rw [if_pos hm]; dsimp only; omega
        · rw [if_neg hm]
          have := ih s₁
          omega

theorem run_aux_calls_mono (fm : FunctionMap) (gw : String → String) (marker : String) :
    ∀ (fuel : Nat) (s : AgentState),
      s.gateway_calls ≤ (run_aux fm gw marker fuel s).1.gateway_calls := by
  intro fuel
  induction fuel with
  | zero => intro s; simp [run_aux]
  | succ n ih =>
    intro s
    rw [run_aux]
    by_cases h : s.max_iterations ≤ s.iteration
    · rw [if_pos h]
    · rw [if_neg h]
      rcases hE : execute_iteration fm gw s with ⟨s₁, res⟩
      have hsh := exec_shape' fm gw s s₁ res (Nat.lt_of_not_le h) hE
      cases res with
      | error e => dsimp only; omega
      | ok v =>
        dsimp only
        by_cases hm : containsSubstr v marker
        · rw [if_pos hm]; dsimp only; omega
        · rw [if_neg hm]
          have := ih s₁
          omega

theorem exec_empty_ok (gw : String → String) (s : AgentState) :
    ∃ s₁ r, execute_iteration [] gw s = (s₁, Except.ok r) := by
  unfold execute_iteration
  by_cases h : s.max_iterations ≤ s.iteration
  · rw [if_pos h]; exact ⟨s, _, rfl⟩
  · rw [if_neg h]
    dsimp only
    simp only [List.isEmpty_nil, Bool.not_true, Bool.false_and, Bool.false_eq_true, if_false]
    exact ⟨_, _, rfl⟩

theorem run_empty_ok (gw : String → String) (marker : String) :
    ∀ (fuel : Nat) (s : AgentState),
      ∃ s₁ r, run_aux [] gw marker fuel s = (s₁, Except.ok r) := by
  intro fuel
  induction fuel with
  | zero => intro s; exact ⟨s, _, rfl⟩
  | succ n ih =>
    intro s
    rw [run_aux]
    by_cases h : s.max_iterations ≤ s.iteration
    · rw [if_pos h]; exact ⟨s, _, rfl⟩
    · rw [if_neg h]
      obtain ⟨s₁, r, hE⟩ := exec_empty_ok gw s
      rw [hE]
      dsimp only
      by_cases hm : containsSubstr r marker
      · rw [if_pos hm]; exact ⟨s₁, r, rfl⟩
      · rw [if_neg hm]; exact ih s₁

theorem run_aux_exhaust (fm : FunctionMap) (gw : String → String) (marker : String) :
    ∀ (fuel : Nat) (s s₂ : AgentState) (r : String),
      s.max_iterations - s.iteration ≤ fuel →
      run_aux fm gw marker fuel s = (s₂, Except.ok r) →
      containsSubstr r marker = false →
      r = "Maximum iterations reached without completion" ∧
      s₂.iteration_responses.length =
        s.iteration_responses.length + (s.max_iterations - s.iteration) := by
  intro fuel
  induction fuel with
  | zero =>
    intro s s₂ r hle hrun hm
    rw [run_aux, Prod.mk.injEq] at hrun
    obtain ⟨h1, h2⟩ := hrun
    subst h1
    refine ⟨(Except.ok.inj h2).symm, by omega⟩
  | succ n ih =>
    intro s s₂ r hle hrun hm
    rw [run_aux] at hrun
    by_cases h : s.max_iterations ≤ s.iteration
    · rw [if_pos h, Prod.mk.injEq] at hrun
      obtain ⟨h1, h2⟩ := hrun
      subst h1
      refine ⟨(Except.ok.inj h2).symm, by omega⟩
    · rw [if_neg h] at hrun
      have hlt := Nat.lt_of_not_le h
      rcases hE : execute_iteration fm gw s with ⟨s₁, res⟩
      have hsh := exec_shape' fm gw s s₁ res hlt hE
      rw [hE] at hrun
      cases res with
      | error e => exact Except.noConfusion (Prod.mk.inj hrun).2
      | ok v =>
        dsimp only at hrun
        by_cases hmk : containsSubstr v marker
        · rw [if_pos hmk, Prod.mk.injEq] at hrun
          obtain ⟨h1, h2⟩ := hrun
          have hvr : v = r := Except.ok.inj h2
          subst hvr
          rw [hmk] at hm
          exact Bool.noConfusion hm
        · rw [if_neg hmk] at hrun
          have hresp := exec_ok_responses fm gw s s₁ v hlt hE
          obtain ⟨hr, hlen⟩ := ih s₁ s₂ r (by omega) hrun hm
          refine ⟨hr, ?_⟩
          rw [hlen, hresp]
          omega

/-! ### More helper lemmas -/

theorem pysplit1_single (s sep : String) (h : containsSubstr s sep = false) :
    pysplit1 s sep = [s] := by
  unfold containsSubstr at h
  unfold pysplit1
  rcases hsp : splitFirst sep.data s.data with _ | ⟨pre, post⟩
  · rfl
  · rw [hsp] at h
    simp at h

theorem exec_plain (fm : FunctionMap) (gw : String → String) (s : AgentState)
    (h1 : s.iteration < s.max_iterations)
    (hp : fm.isEmpty = true ∨ containsSubstr (gw (build_prompt s)) "FUNCTION_CALL:" = false) :
    execute_iteration fm gw s =
      ({ bump s with
          iteration_responses := s.iteration_responses ++ [gw (build_prompt s)] },
        Except.ok (gw (build_prompt s))) := by
  unfold execute_iteration
  rw [if_neg (Nat.not_le.mpr h1)]
  dsimp only
  rw [build_prompt_bump]
  rcases hp with hp | hp
  · rw [hp]
    rfl
  · rw [hp]
    simp only [Bool.and_false, Bool.false_eq_true, if_false]
    rfl

theorem exec_malformed (fm : FunctionMap) (gw : String → String) (s : AgentState)
    (h1 : s.iteration < s.max_iterations)
    (h2 : fm.isEmpty = false)
    (h3 : containsSubstr (gw (build_prompt s)) "FUNCTION_CALL:" = true)
    (h4 : containsSubstr (after_marker (gw (build_prompt s))) "|" = false) :
    execute_iteration fm gw s =
      (bump s, Except.error "ValueError: not enough values to unpack (expected 2, got 1)") := by
  unfold execute_iteration
  rw [if_neg (Nat.not_le.mpr h1)]
  dsimp only
  rw [build_prompt_bump, h2, h3, pysplit1_single _ _ h4]
  rfl

theorem exec_dispatch_ok (fm : FunctionMap) (gw : String → String) (s : AgentState)
    (a b v : String) (f : PyFunc)
    (h1 : s.iteration < s.max_iterations)
    (h2 : fm.isEmpty = false)
    (h3 : containsSubstr (gw (build_prompt s)) "FUNCTION_CALL:" = true)
    (h4 : pysplit1 (after_marker (gw (build_prompt s))) "|" = [a, b])
    (h5 : lookup fm (pystrip a) = some f)
    (h6 : f (pystrip b) = Except.ok v) :
    execute_iteration fm gw s =
      ({ bump s with
          iteration_results := s.iteration_results ++ [v]
          iteration_responses := s.iteration_responses ++
            ["In iteration " ++ toString (s.iteration + 1) ++ " you called " ++
              pystrip a ++ " with " ++ pystrip b ++
              " parameters, and the function returned " ++ v ++ "."] },
        Except.ok v) := by
  unfold execute_iteration
  rw [if_neg (Nat.not_le.mpr h1)]
  dsimp only
  rw [build_prompt_bump, h2, h3, h4]
  dsimp only
  rw [h5]
  dsimp only
  rw [h6]
  rfl

theorem exec_dispatch_err (fm : FunctionMap) (gw : String → String) (s : AgentState)
    (a b e : String) (f : PyFunc)
    (h1 : s.iteration < s.max_iterations)
    (h2 : fm.isEmpty = false)
    (h3 : containsSubstr (gw (build_prompt s)) "FUNCTION_CALL:" = true)
    (h4 : pysplit1 (after_marker (gw (build_prompt s))) "|" = [a, b])
    (h5 : lookup fm (pystrip a) = some f)
    (h6 : f (pystrip b) = Except.error e) :
    execute_iteration fm gw s = (bump s, Except.error e) := by
  unfold execute_iteration
  rw [if_neg (Nat.not_le.mpr h1)]
  dsimp only
  rw [build_prompt_bump, h2, h3, h4]
  dsimp only
  rw [h5]
  dsimp only
  rw [h6]
  rfl

theorem run_step_stop (fm : FunctionMap) (gw : String → String) (marker : String)
    (s s₁ : AgentState) (r : String)
    (h : s.iteration < s.max_iterations)
    (hE : execute_iteration fm gw s = (s₁, Except.ok r))
    (hm : containsSubstr r marker = true) :
    run_until_completion fm gw marker s = (s₁, Except.ok r) := by
  unfold run_until_completion
  obtain ⟨k, hk⟩ : ∃ k, s.max_iterations - s.iteration = k + 1 :=
    ⟨s.max_iterations - s.iteration - 1, by omega⟩
  rw [hk, run_aux, if_neg (Nat.not_le.mpr h), hE]
  dsimp only
  rw [hm]
  rfl

theorem run_step_err (fm : FunctionMap) (gw : String → String) (marker : String)
    (s s₁ : AgentState) (e : String)
    (h : s.iteration < s.max_iterations)
    (hE : execute_iteration fm gw s = (s₁, Except.error e)) :
    run_until_completion fm gw marker s = (s₁, Except.error e) := by
  unfold run_until_completion
  obtain ⟨k, hk⟩ : ∃ k, s.max_iterations - s.iteration = k + 1 :=
    ⟨s.max_iterations - s.iteration - 1, by omega⟩
  rw [hk, run_aux, if_neg (Nat.not_le.mpr h), hE]

/-! ### Helper lemmas about the analysis functions -/

theorem pyabs_eq_abs (q : ℚ) : pyabs q = |q| := by
  unfold pyabs
  by_cases h : q < 0
  · rw [if_pos h, abs_of_neg h]
  · rw [if_neg h, abs_of_nonneg (le_of_not_lt h)]

theorem foldl_add_sum {α : Type} (key : α → ℚ) :
    ∀ (l : List α) (a : ℚ), l.foldl (fun t c => t + key c) a = a + (l.map key).sum := by
  intro l
  induction l with
  | nil => intro a; simp
  | cons x xs ih =>
    intro a
    rw [List.foldl_cons, ih, List.map_cons, List.sum_cons]
    ring

theorem foldl_count {α : Type} (p : α → Prop) [DecidablePred p] :
    ∀ (l : List α) (n : Nat),
      l.foldl (fun n c => if p c then n + 1 else n) n =
        n + l.countP (fun c => decide (p c)) := by
  intro l
  induction l with
  | nil => intro n; simp
  | cons x xs ih =>
    intro n
    rw [List.foldl_cons, ih, List.countP_cons]
    by_cases h : p x
    · simp [h]
      omega
    · simp [h]

theorem pymax_fold {α : Type} (key : α → ℚ) :
    ∀ (xs : List α) (a b : α),
      xs.foldl (fun best y => if key best < key y then y else best) a = b →
      key a ≤ key b ∧ (∀ y ∈ xs, key y ≤ key b) ∧
      (b = a ∨ (key a < key b ∧
        ∃ l₁ l₂, xs = l₁ ++ b :: l₂ ∧ ∀ y ∈ l₁, key y < key b)) := by
  intro xs
  induction xs with
  | nil =>
    intro a b hb
    rw [List.foldl_nil] at hb
    subst hb
    exact ⟨le_refl _, by simp, Or.inl rfl⟩
  | cons x xs ih =>
    intro a b hb
    rw [List.foldl_cons] at hb
    by_cases hax : key a < key x
    · rw [if_pos hax] at hb
      obtain ⟨h1, h2, h3⟩ := ih x b hb
      refine ⟨le_of_lt (lt_of_lt_of_le hax h1), ?_, ?_⟩
      · intro y hy
        rcases List.mem_cons.mp hy with rfl | hy
        · exact h1
        · exact h2 y hy
      · rcases h3 with rfl | ⟨hlt, l₁, l₂, hxs, hl⟩
        · exact Or.inr ⟨hax, [], xs, rfl, by simp⟩
        · refine Or.inr ⟨lt_trans hax hlt, x :: l₁, l₂, by rw [hxs, List.cons_append], ?_⟩
          intro y hy
          rcases List.mem_cons.mp hy with rfl | hy
          · exact hlt
          · exact hl y hy
    · rw [if_neg hax] at hb
      obtain ⟨h1, h2, h3⟩ := ih a b hb
      have hxa : key x ≤ key a := le_of_not_lt hax
      refine ⟨h1, ?_, ?_⟩
      · intro y hy
        rcases List.mem_cons.mp hy with rfl | hy
        · exact le_trans hxa h1
        · exact h2 y hy
      · rcases h3 with rfl | ⟨hlt, l₁, l₂, hxs, hl⟩
        · exact Or.inl rfl
        · refine Or.inr ⟨hlt, x :: l₁, l₂, by rw [hxs, List.cons_append], ?_⟩
          intro y hy
          rcases List.mem_cons.mp hy with rfl | hy
          · exact lt_of_le_of_lt hxa hlt
          · exact hl y hy

theorem pymax_spec {α : Type} (key : α → ℚ) (x : α) (xs : List α) :
    ∃ g l₁ l₂, pymax_by key (x :: xs) = some g ∧ x :: xs = l₁ ++ g :: l₂ ∧
      (∀ y ∈ l₁, key y < key g) ∧ (∀ y ∈ x :: xs, key y ≤ key g) := by
  obtain ⟨b, hb⟩ : ∃ b, xs.foldl (fun best y => if key best < key y then y else best) x = b :=
    ⟨_, rfl⟩
  obtain ⟨h1, h2, h3⟩ := pymax_fold key xs x b hb
  have hpy : pymax_by key (x :: xs) = some b := by
    simp only [pymax_by]
    rw [hb]
  have hall : ∀ y ∈ x :: xs, key y ≤ key b := by
    intro y hy
    rcases List.mem_cons.mp hy with rfl | hy
    · exact h1
    · exact h2 y hy
  rcases h3 with hbx | ⟨hlt, l₁, l₂, hxs, hl⟩
  · subst hbx
    exact ⟨b, [], xs, hpy, by simp, by simp, hall⟩
  · refine ⟨b, x :: l₁, l₂, hpy, by rw [hxs, List.cons_append], ?_, hall⟩
    intro y hy
    rcases List.mem_cons.mp hy with rfl | hy
    · exact hlt
    · exact hl y hy

theorem pymin_eq_pymax_neg {α : Type} (key : α → ℚ) (l : List α) :
    pymin_by key l = pymax_by (fun a => -(key a)) l := by
  have hstep : (fun (best y : α) => if key y < key best then y else best)
      = (fun best y => if -(key best) < -(key y) then y else best) := by
    funext best y
    by_cases h : key y < key best
    · rw [if_pos h, if_pos (neg_lt_neg_iff.mpr h)]
    · rw [if_neg h, if_neg (fun hc => h (neg_lt_neg_iff.mp hc))]
  cases l with
  | nil => rfl
  | cons x xs =>
    unfold pymin_by pymax_by
    rw [hstep]

theorem pymin_spec {α : Type} (key : α → ℚ) (x : α) (xs : List α) :
    ∃ m l₁ l₂, pymin_by key (x :: xs) = some m ∧ x :: xs = l₁ ++ m :: l₂ ∧
      (∀ y ∈ l₁, key m < key y) ∧ (∀ y ∈ x :: xs, key m ≤ key y) := by
  obtain ⟨g, l₁, l₂, hg, hxs, hl, hall⟩ := pymax_spec (fun a => -(key a)) x xs
  refine ⟨g, l₁, l₂, ?_, hxs, ?_, ?_⟩
  · rw [pymin_eq_pymax_neg]
    exact hg
  · intro y hy
    exact neg_lt_neg_iff.mp (hl y hy)
  · intro y hy
    exact neg_le_neg_iff.mp (hall y hy)

theorem isEmpty_map {α β : Type} (f : α → β) (l : List α) :
    (l.map f).isEmpty = l.isEmpty := by
  cases l <;> rfl

theorem partitionDays_eq (data : List (String × DayData)) :
    partitionDays data =
      ((data.filter (fun p => !p.2.news_articles.isEmpty)).map
        (fun p => ⟨p.1, p.2.price_change_percent, p.2.news_articles.length⟩),
       (data.filter (fun p => p.2.news_articles.isEmpty)).map
        (fun p => ⟨p.1, p.2.price_change_percent⟩)) := by
  induction data with
  | nil => rfl
  | cons p rest ih =>
    rcases p with ⟨date, d⟩
    rw [partitionDays, ih]
    by_cases h : d.news_articles.isEmpty <;>
      simp [List.filter_cons, h]

theorem correlate_means (data : List (String × DayData)) :
    (correlate_news_and_price data).avg_price_change_with_news = withNewsMean data ∧
    (correlate_news_and_price data).avg_price_change_without_news = withoutNewsMean data := by
  unfold correlate_news_and_price withNewsMean withoutNewsMean
  rw [partitionDays_eq]
  dsimp only
  constructor
  · rw [isEmpty_map, List.map_map, List.length_map]
    rfl
  · rw [isEmpty_map, List.map_map, List.length_map]
    rfl

theorem run_aux_first_call (fm : FunctionMap) (gw : String → String) (marker : String)
    (k : Nat) (s : AgentState) (h : s.iteration < s.max_iterations) :
    s.gateway_calls + 1 ≤ (run_aux fm gw marker (k + 1) s).1.gateway_calls := by
  rw [run_aux, if_neg (Nat.not_le.mpr h)]
  rcases hE : execute_iteration fm gw s with ⟨s₁, res⟩
  have hsh := exec_shape' fm gw s s₁ res h hE
  cases res with
  | error e => dsimp only; omega
  | ok v =>
    dsimp only
    by_cases hm : containsSubstr v marker
    · rw [if_pos hm]; dsimp only; omega
    · rw [if_neg hm]
      have := run_aux_calls_mono fm gw marker k s₁
      omega

/-! ### Claim theorems -/

/-- Claim C1: for every iteration ceiling `N ≥ 1`, a run of the agent loop
performs at most `N` model-gateway calls, and once an iteration result
containing the completion marker is observed the loop makes no further
model calls (the final call count equals the call count at the observing
iteration). -/
theorem claim1_iteration_budget (fm : FunctionMap) (gw : String → String)
    (marker sp q : String) (N : Nat) (_hN : 1 ≤ N) :
    (run_until_completion fm gw marker (initState N sp q)).1.gateway_calls ≤ N ∧
    (∀ (s s₁ : AgentState) (r : String), s.iteration < s.max_iterations →
      execute_iteration fm gw s = (s₁, Except.ok r) →
      containsSubstr r marker = true →
      (run_until_completion fm gw marker s).1.gateway_calls = s₁.gateway_calls) := by
  constructor
  · have h := run_aux_calls_le fm gw marker N (initState N sp q)
    have h1 : (initState N sp q).max_iterations - (initState N sp q).iteration = N := rfl
    unfold run_until_completion
    rw [h1]
    simpa [show (initState N sp q).gateway_calls = 0 from rfl] using h
  · intro s s₁ r h hE hm
    rw [run_step_stop fm gw marker s s₁ r h hE hm]

theorem claim1_witness :
    (run_until_completion [] (fun _ => "x") "FINAL" (initState 1 "" "")).1.gateway_calls ≤ 1 :=
  (claim1_iteration_budget [] (fun _ => "x") "FINAL" "" "" 1 (by decide)).1

/-- Claim C2 fails on the code: a response that contains the function-call
marker but no separator makes the unpacking assignment raise a
`ValueError` that escapes `run_until_completion`, with no transcript
entry recorded and no further iteration. -/
theorem claim2_counterexample :
    (run_until_completion [("dummy", fun _ => Except.ok "ok")]
        (fun _ => "FUNCTION_CALL: nosep") "FINAL" (initState 3 "sys" "ask")).2 =
      Except.error "ValueError: not enough values to unpack (expected 2, got 1)" ∧
    (run_until_completion [("dummy", fun _ => Except.ok "ok")]
        (fun _ => "FUNCTION_CALL: nosep") "FINAL"
        (initState 3 "sys" "ask")).1.iteration_responses = [] := by
  decide

/-- Claim C2 (amended): whenever the function map is active and the model
response contains the function-call marker with no `|` separator after
it, the loop does not recover: the split-unpacking `ValueError`
propagates out of `run_until_completion`, no transcript entry is recorded
for the iteration, and no further iterations run. -/
theorem claim2_malformed_raises (fm : FunctionMap) (gw : String → String)
    (marker : String) (s : AgentState)
    (h1 : s.iteration < s.max_iterations)
    (h2 : fm.isEmpty = false)
    (h3 : containsSubstr (gw (build_prompt s)) "FUNCTION_CALL:" = true)
    (h4 : containsSubstr (after_marker (gw (build_prompt s))) "|" = false) :
    run_until_completion fm gw marker s =
      (bump s, Except.error "ValueError: not enough values to unpack (expected 2, got 1)") ∧
    (bump s).iteration_responses = s.iteration_responses :=
  ⟨run_step_err fm gw marker s (bump s) _ h1 (exec_malformed fm gw s h1 h2 h3 h4), rfl⟩

theorem claim2_witness :
    run_until_completion [("d", fun _ => Except.ok "o")] (fun _ => "FUNCTION_CALL: broken")
        "FINAL" (initState 2 "a" "b") =
      (bump (initState 2 "a" "b"),
        Except.error "ValueError: not enough values to unpack (expected 2, got 1)") ∧
    (bump (initState 2 "a" "b")).iteration_responses =
      (initState 2 "a" "b").iteration_responses :=
  claim2_malformed_raises [("d", fun _ => Except.ok "o")]
    (fun _ => "FUNCTION_CALL: broken") "FINAL" (initState 2 "a" "b")
    (by decide) (by decide) (by decide) (by decide)

/-- Claim C3 fails on the code: a registered function that raises on its
payload makes the exception escape `run_until_completion` (there is no
`try`/`except` around the invocation); no error-shaped result is
substituted and no transcript entry is appended. -/
theorem claim3_counterexample :
    (run_until_completion [("boom", fun _ => Except.error "RuntimeError: boom")]
        (fun _ => "FUNCTION_CALL: boom|x") "FINAL" (initState 3 "s" "q")).2 =
      Except.error "RuntimeError: boom" ∧
    (run_until_completion [("boom", fun _ => Except.error "RuntimeError: boom")]
        (fun _ => "FUNCTION_CALL: boom|x") "FINAL"
        (initState 3 "s" "q")).1.iteration_responses = [] := by
  decide

/-- Claim C3 (amended): when a function-call response names a registered
function and that function raises on its payload, the exception
propagates out of `run_until_completion` unchanged; no textual error
result is substituted, no transcript entry is appended, and the loop does
not continue. -/
theorem claim3_invocation_raises (fm : FunctionMap) (gw : String → String)
    (marker : String) (s : AgentState) (a b e : String) (f : PyFunc)
    (h1 : s.iteration < s.max_iterations)
    (h2 : fm.isEmpty = false)
    (h3 : containsSubstr (gw (build_prompt s)) "FUNCTION_CALL:" = true)
    (h4 : pysplit1 (after_marker (gw (build_prompt s))) "|" = [a, b])
    (h5 : lookup fm (pystrip a) = some f)
    (h6 : f (pystrip b) = Except.error e) :
    run_until_completion fm gw marker s = (bump s, Except.error e) ∧
    (bump s).iteration_responses = s.iteration_responses :=
  ⟨run_step_err fm gw marker s (bump s) e h1
      (exec_dispatch_err fm gw s a b e f h1 h2 h3 h4 h5 h6), rfl⟩

theorem claim3_witness :
    run_until_completion [("boom", fun _ => Except.error "RuntimeError: boom")]
        (fun _ => "FUNCTION_CALL: boom|x") "FINAL" (initState 4 "sp" "qq") =
      (bump (initState 4 "sp" "qq"), Except.error "RuntimeError: boom") ∧
    (bump (initState 4 "sp" "qq")).iteration_responses =
      (initState 4 "sp" "qq").iteration_responses :=
  claim3_invocation_raises [("boom", fun _ => Except.error "RuntimeError: boom")]
    (fun _ => "FUNCTION_CALL: boom|x") "FINAL" (initState 4 "sp" "qq")
    "boom" "x" "RuntimeError: boom" (fun _ => Except.error "RuntimeError: boom")
    (by decide) (by decide) (by decide) (by decide) rfl rfl

/-- Claim C4 fails on the code: with both the system prompt and the
initial query unset (empty), `run_until_completion` performs a model call
and returns normally — no `ConfigurationError` exists anywhere in the
code and no check precedes the first iteration. -/
theorem claim4_counterexample :
    (run_until_completion [] (fun _ => "hello") "FINAL"
        (initState 1 "" "")).1.gateway_calls = 1 ∧
    (run_until_completion [] (fun _ => "hello") "FINAL" (initState 1 "" "")).2 =
      Except.ok "Maximum iterations reached without completion" := by
  decide

/-- Claim C4 (amended): the loop performs no configuration validation.
With the system prompt and initial query both unset (their `__init__`
defaults, the empty string) and any positive ceiling, execution proceeds
normally: at least one model call is made and the run returns a value
rather than raising. -/
theorem claim4_no_validation (gw : String → String) (marker : String) (N : Nat)
    (hN : 1 ≤ N) :
    1 ≤ (run_until_completion [] gw marker (initState N "" "")).1.gateway_calls ∧
    ∃ s₂ r, run_until_completion [] gw marker (initState N "" "") =
      (s₂, Except.ok r) := by
  constructor
  · unfold run_until_completion
    have h1 : (initState N "" "").max_iterations - (initState N "" "").iteration = N := rfl
    rw [h1]
    obtain ⟨k, rfl⟩ : ∃ k, N = k + 1 := ⟨N - 1, by omega⟩
    have := run_aux_first_call [] gw marker k (initState (k + 1) "" "") hN
    simpa [show (initState (k + 1) "" "").gateway_calls = 0 from rfl] using this
  · unfold run_until_completion
    exact run_empty_ok gw marker _ _

theorem claim4_witness :
    1 ≤ (run_until_completion [] (fun _ => "w") "DONE" (initState 2 "" "")).1.gateway_calls ∧
    ∃ s₂ r, run_until_completion [] (fun _ => "w") "DONE" (initState 2 "" "") =
      (s₂, Except.ok r) :=
  claim4_no_validation (fun _ => "w") "DONE" 2 (by decide)

/-- Claim C5: when a run returns normally and its returned value does not
contain the completion marker (so no iteration result contained it), the
returned value is exactly the sentinel
`"Maximum iterations reached without completion"` and the transcript
length equals the configured ceiling `N`. -/
theorem claim5_exhaustion (fm : FunctionMap) (gw : String → String)
    (marker sp q : String) (N : Nat) (s₂ : AgentState) (r : String)
    (hrun : run_until_completion fm gw marker (initState N sp q) = (s₂, Except.ok r))
    (hm : containsSubstr r marker = false) :
    r = "Maximum iterations reached without completion" ∧
    s₂.iteration_responses.length = N := by
  unfold run_until_completion at hrun
  have h1 : (initState N sp q).max_iterations - (initState N sp q).iteration = N := rfl
  rw [h1] at hrun
  obtain ⟨hr, hlen⟩ := run_aux_exhaust fm gw marker N (initState N sp q) s₂ r h1.le hrun hm
  refine ⟨hr, ?_⟩
  rw [show (initState N sp q).iteration_responses.length = 0 from rfl, h1] at hlen
  omega

theorem claim5_witness :
    "Maximum iterations reached without completion" =
        "Maximum iterations reached without completion" ∧
    (⟨2, "s", "q", 2, [], ["hello", "hello"], 2⟩ : AgentState).iteration_responses.length = 2 :=
  claim5_exhaustion [] (fun _ => "hello") "FINAL" "s" "q" 2
    ⟨2, "s", "q", 2, [], ["hello", "hello"], 2⟩
    "Maximum iterations reached without completion" (by decide) (by decide)

/-- Claim C6 fails on the code: a first response that contains the
completion marker but is also treated as a function call does not stop
the loop — the marker is tested against the function result, not the
response — so here a marker-bearing first response leads to two gateway
calls, a transcript of length 2 and the exhaustion sentinel. -/
theorem claim6_counterexample :
    containsSubstr "FINAL FUNCTION_CALL: f|p" "FINAL" = true ∧
    (run_until_completion [("f", fun _ => Except.ok "r")]
        (fun _ => "FINAL FUNCTION_CALL: f|p") "FINAL"
        (initState 2 "s" "q")).1.gateway_calls = 2 ∧
    (run_until_completion [("f", fun _ => Except.ok "r")]
        (fun _ => "FINAL FUNCTION_CALL: f|p") "FINAL" (initState 2 "s" "q")).2 =
      Except.ok "Maximum iterations reached without completion" ∧
    (run_until_completion [("f", fun _ => Except.ok "r")]
        (fun _ => "FINAL FUNCTION_CALL: f|p") "FINAL"
        (initState 2 "s" "q")).1.iteration_responses.length = 2 := by
  decide

/-- Claim C6 (amended): if the model's very first response contains the
completion marker and the response is not treated as a function call
(no active function map, or no function-call token in the response), then
`run_until_completion` terminates after exactly one gateway call, returns
that response, and the transcript is exactly that one response. -/
theorem claim6_first_response_final (fm : FunctionMap) (gw : String → String)
    (marker sp q : String) (N : Nat) (hN : 1 ≤ N)
    (hm : containsSubstr (gw (build_prompt (initState N sp q))) marker = true)
    (hp : fm.isEmpty = true ∨
      containsSubstr (gw (build_prompt (initState N sp q))) "FUNCTION_CALL:" = false) :
    run_until_completion fm gw marker (initState N sp q) =
      (⟨N, sp, q, 1, [], [gw (build_prompt (initState N sp q))], 1⟩,
        Except.ok (gw (build_prompt (initState N sp q)))) := by
  have h1 : (initState N sp q).iteration < (initState N sp q).max_iterations := hN
  exact run_step_stop fm gw marker (initState N sp q) _ _ h1
    (exec_plain fm gw (initState N sp q) h1 hp) hm

theorem claim6_witness :
    run_until_completion [] (fun _ => "FINAL done") "FINAL" (initState 3 "x" "y") =
      (⟨3, "x", "y", 1, [], ["FINAL done"], 1⟩, Except.ok "FINAL done") :=
  claim6_first_response_final [] (fun _ => "FINAL done") "FINAL" "x" "y" 3
    (by decide) (by decide) (Or.inl rfl)

/-- Claim C7: for a function-call response naming a registered function
with a valid payload (a function that returns normally), the value
returned by `execute_iteration` and the value recorded in
`iteration_results` and in the transcript line are exactly the direct
invocation of that function on that payload. -/
theorem claim7_dispatch (fm : FunctionMap) (gw : String → String) (s : AgentState)
    (a b v : String) (f : PyFunc)
    (h1 : s.iteration < s.max_iterations)
    (h2 : fm.isEmpty = false)
    (h3 : containsSubstr (gw (build_prompt s)) "FUNCTION_CALL:" = true)
    (h4 : pysplit1 (after_marker (gw (build_prompt s))) "|" = [a, b])
    (h5 : lookup fm (pystrip a) = some f)
    (h6 : f (pystrip b) = Except.ok v) :
    (execute_iteration fm gw s).2 = f (pystrip b) ∧
    (execute_iteration fm gw s).1.iteration_results = s.iteration_results ++ [v] ∧
    (execute_iteration fm gw s).1.iteration_responses = s.iteration_responses ++
      ["In iteration " ++ toString (s.iteration + 1) ++ " you called " ++ pystrip a ++
        " with " ++ pystrip b ++ " parameters, and the function returned " ++ v ++ "."] := by
  have hE := exec_dispatch_ok fm gw s a b v f h1 h2 h3 h4 h5 h6
  rw [hE]
  exact ⟨h6.symm, rfl, rfl⟩

theorem claim7_witness :
    (execute_iteration [("add", fun p => Except.ok ("got " ++ p))]
        (fun _ => "FUNCTION_CALL: add|42") (initState 4 "sp" "qq")).2 =
      Except.ok "got 42" ∧
    (execute_iteration [("add", fun p => Except.ok ("got " ++ p))]
        (fun _ => "FUNCTION_CALL: add|42") (initState 4 "sp" "qq")).1.iteration_results =
      ["got 42"] ∧
    (execute_iteration [("add", fun p => Except.ok ("got " ++ p))]
        (fun _ => "FUNCTION_CALL: add|42") (initState 4 "sp" "qq")).1.iteration_responses =
      ["In iteration 1 you called add with 42 parameters, and the function returned got 42."] :=
  claim7_dispatch [("add", fun p => Except.ok ("got " ++ p))]
    (fun _ => "FUNCTION_CALL: add|42") (initState 4 "sp" "qq") "add" "42" "got 42"
    (fun p => Except.ok ("got " ++ p)) (by decide) (by decide) (by decide) (by decide) rfl rfl

/-- Claim C8: `has_correlation` is true exactly when the absolute
difference of the two bucket means exceeds 0.5; `correlation_strength` is
the normalized ratio with value 0 when both means are 0; identical bucket
means give `has_correlation = false` and `correlation_strength = 0`. -/
theorem claim8_correlation (data : List (String × DayData)) :
    ((correlate_news_and_price data).has_correlation = true ↔
      (1 : ℚ)/2 < |withNewsMean data - withoutNewsMean data|) ∧
    (correlate_news_and_price data).correlation_strength =
      (if 0 < max |withNewsMean data| |withoutNewsMean data| then
        |withNewsMean data - withoutNewsMean data| /
          max |withNewsMean data| |withoutNewsMean data|
      else 0) ∧
    (withNewsMean data = 0 ∧ withoutNewsMean data = 0 →
      (correlate_news_and_price data).correlation_strength = 0) ∧
    (withNewsMean data = withoutNewsMean data →
      (correlate_news_and_price data).has_correlation = false ∧
      (correlate_news_and_price data).correlation_strength = 0) := by
  obtain ⟨hw, hwo⟩ := correlate_means data
  have hc : (correlate_news_and_price data).has_correlation =
      decide ((1 : ℚ)/2 < pyabs ((correlate_news_and_price data).avg_price_change_with_news -
        (correlate_news_and_price data).avg_price_change_without_news)) := rfl
  have hs : (correlate_news_and_price data).correlation_strength =
      (if 0 < max (pyabs ((correlate_news_and_price data).avg_price_change_with_news))
          (pyabs ((correlate_news_and_price data).avg_price_change_without_news)) then
        pyabs ((correlate_news_and_price data).avg_price_change_with_news -
          (correlate_news_and_price data).avg_price_change_without_news) /
          max (pyabs ((correlate_news_and_price data).avg_price_change_with_news))
            (pyabs ((correlate_news_and_price data).avg_price_change_without_news))
      else 0) := rfl
  rw [hw, hwo] at hc hs
  simp only [pyabs_eq_abs] at hc hs
  refine ⟨?_, ?_, ?_, ?_⟩
  · rw [hc]
    exact decide_eq_true_iff
  · exact hs
  · rintro ⟨hz1, hz2⟩
    rw [hs, hz1, hz2]
    norm_num
  · intro heq
    constructor
    · rw [hc, heq, sub_self, abs_zero]
      norm_num
    · rw [hs, heq, sub_self, abs_zero]
      by_cases hmx : 0 < max |withoutNewsMean data| |withoutNewsMean data|
      · rw [if_pos hmx, zero_div]
      · rw [if_neg hmx]

theorem claim8_witness :
    (correlate_news_and_price
        [("2024-01-02", ⟨1, [⟨"t"⟩]⟩), ("2024-01-03", ⟨1, []⟩)]).has_correlation = false ∧
    (correlate_news_and_price
        [("2024-01-02", ⟨1, [⟨"t"⟩]⟩), ("2024-01-03", ⟨1, []⟩)]).correlation_strength = 0 :=
  (claim8_correlation [("2024-01-02", ⟨1, [⟨"t"⟩]⟩), ("2024-01-03", ⟨1, []⟩)]).2.2.2
    (by norm_num [withNewsMean, withoutNewsMean, List.filter_cons])

/-- Claim C9: for every non-empty `daily_changes` series,
`analyze_price_data` returns the mean percent change, the up-day and
down-day counts (zero counted as neither), and max-gain/max-loss records
attaining the maximum/minimum percent change with ties broken by first
occurrence; and on the concrete two-day series of the spec it returns
average 1.0, one up-day, one down-day, max gain 3.0 and max loss -1.0. -/
theorem claim9_price_analysis :
    (∀ td : TickerData, td.daily_changes ≠ [] → price_analysis_spec td) ∧
    analyze_price_data ⟨"TEST", "TestCo", 100,
        [⟨"2024-01-02", 3, 0⟩, ⟨"2024-01-03", -1, 0⟩]⟩ =
      PriceResult.ok ⟨"TEST", "TestCo", 100, "2024-01-02 to 2024-01-03",
        1, 1, 1, ⟨"2024-01-02", 3, 0⟩, ⟨"2024-01-03", -1, 0⟩⟩ := by
  constructor
  · intro td h
    rcases hdc : td.daily_changes with _ | ⟨first, rest⟩
    · exact absurd hdc h
    · obtain ⟨g, l₁, l₂, hg, hsplit, hlg, hallg⟩ :=
        pymax_spec (fun c => c.percent_change) first rest
      obtain ⟨m, l₃, l₄, hmi, hsplitm, hlm, hallm⟩ :=
        pymin_spec (fun c => c.percent_change) first rest
      unfold price_analysis_spec
      rw [hdc]
      refine ⟨_, by unfold analyze_price_data; rw [hdc], ?_, ?_, ?_, ?_, ?_⟩
      · show (first :: rest).foldl (fun t c => t + c.percent_change) 0 /
            (((first :: rest).length : ℚ)) =
          ((first :: rest).map DailyChange.percent_change).sum / (((first :: rest).length : ℚ))
        rw [foldl_add_sum, zero_add]
      · show (first :: rest).foldl (fun n c => if 0 < c.percent_change then n + 1 else n) 0 =
          (first :: rest).countP (fun c => decide (0 < c.percent_change))
        rw [foldl_count, Nat.zero_add]
      · show (first :: rest).foldl (fun n c => if c.percent_change < 0 then n + 1 else n) 0 =
          (first :: rest).countP (fun c => decide (c.percent_change < 0))
        rw [foldl_count, Nat.zero_add]
      · refine ⟨g, l₁, l₂, hsplit, ?_, hlg, hallg⟩
        show (⟨((pymax_by (fun c => c.percent_change) (first :: rest)).getD first).date,
            ((pymax_by (fun c => c.percent_change) (first :: rest)).getD first).percent_change,
            ((pymax_by (fun c => c.percent_change) (first :: rest)).getD first).close⟩ :
              ExtremeDay) = ⟨g.date, g.percent_change, g.close⟩
        rw [hg]
        rfl
      · refine ⟨m, l₃, l₄, hsplitm, ?_, hlm, hallm⟩
        show (⟨((pymin_by (fun c => c.percent_change) (first :: rest)).getD first).date,
            ((pymin_by (fun c => c.percent_change) (first :: rest)).getD first).percent_change,
            ((pymin_by (fun c => c.percent_change) (first :: rest)).getD first).close⟩ :
              ExtremeDay) = ⟨m.date, m.percent_change, m.close⟩
        rw [hmi]
        rfl
  · norm_num [analyze_price_data, pymax_by, pymin_by, List.foldl_cons, List.foldl_nil,
      List.getLastD]
    rfl

theorem claim9_witness :
    (⟨"A", "B", 1, [⟨"d1", 2, 5⟩]⟩ : TickerData).daily_changes ≠ [] ∧
    price_analysis_spec ⟨"A", "B", 1, [⟨"d1", 2, 5⟩]⟩ :=
  ⟨by decide, claim9_price_analysis.1 ⟨"A", "B", 1, [⟨"d1", 2, 5⟩]⟩ (by decide)⟩

/-- Claim C10: the loop tests the completion marker against whatever
`execute_iteration` returned, so any iteration result containing the
marker — in particular a dispatched function's return value, with no
model-produced final answer at all — stops the loop immediately and is
returned as the final result. -/
theorem claim10_marker_on_result (fm : FunctionMap) (gw : String → String)
    (marker : String) (s s₁ : AgentState) (r : String)
    (h : s.iteration < s.max_iterations)
    (hE : execute_iteration fm gw s = (s₁, Except.ok r))
    (hm : containsSubstr r marker = true) :
    run_until_completion fm gw marker s = (s₁, Except.ok r) ∧
    run_until_completion [("g", fun _ => Except.ok "result with FINAL inside")]
        (fun _ => "FUNCTION_CALL: g|p") "FINAL" (initState 5 "s" "q") =
      (⟨5, "s", "q", 1, ["result with FINAL inside"],
        ["In iteration 1 you called g with p parameters, and the function returned result with FINAL inside."],
        1⟩,
       Except.ok "result with FINAL inside") :=
  ⟨run_step_stop fm gw marker s s₁ r h hE hm, by decide⟩

theorem claim10_witness :
    run_until_completion [("h", fun _ => Except.ok "xx FINAL yy")]
        (fun _ => "FUNCTION_CALL: h|z") "FINAL" (initState 7 "a" "b") =
      (⟨7, "a", "b", 1, ["xx FINAL yy"],
        ["In iteration 1 you called h with z parameters, and the function returned xx FINAL yy."],
        1⟩,
       Except.ok "xx FINAL yy") :=
  (claim10_marker_on_result [("h", fun _ => Except.ok "xx FINAL yy")]
    (fun _ => "FUNCTION_CALL: h|z") "FINAL" (initState 7 "a" "b")
    ⟨7, "a", "b", 1, ["xx FINAL yy"],
      ["In iteration 1 you called h with z parameters, and the function returned xx FINAL yy."],
      1⟩
    "xx FINAL yy" (by decide) (by decide) (by decide)).1

end AgentPluggin
